import Mathlib

/-
Verification of the ay23 login-automation repository.

The definitions below are a shallow embedding of the JavaScript source:
  - src/src/checkin/checkin-github.js  (login state machine, device-code
    polling loop, session extraction, batch runner)
  - src/src/utils/notify.js            (password-change batch flow and the
    error-count reporting policy)
  - src/unnamed/part_000               (stealth/anti-fingerprint payload)
Pure fragments become Lean functions; the wall clock, Math.random and the
backend record store become explicit parameters (`times`, `rand`, `fetch`);
the bounded while-loop becomes a fuel-indexed recursion whose fuel is shown
sufficient from the clock hypotheses.
-/

/-! ## JavaScript-truthiness helpers -/

/-- Truthiness of a JavaScript string: any non-empty string is truthy. -/
def jsTruthyStr (s : String) : Bool := s != ""

/-- Truthiness of a JavaScript string-or-null value (`none` models null or
undefined). -/
def jsTruthyOptStr : Option String → Bool
  | none => false
  | some s => s != ""

/-- Infix test on character lists, the core of JavaScript includes. -/
def infixChars : List Char → List Char → Bool
  | pat, [] => pat.isEmpty
  | pat, c :: rest => pat.isPrefixOf (c :: rest) || infixChars pat rest

/-- JavaScript substring containment test s.includes(pat). -/
def strIncludes (s pat : String) : Bool := infixChars pat.toList s.toList

/-! ## Session extraction (checkin-github.js, step 7)

The extraction step of loginAndGetSession reads the latest captured
response of the current-user endpoint, falls back to a localStorage read,
computes apiUser from the user id, reads the session cookie from the
context cookie jar, and returns a result object only when both pieces are
truthy. -/

/-- A browser cookie as exposed by the context cookie jar. -/
structure Cookie where
  name : String
  value : String
  domain : String
deriving DecidableEq, Repr

/-- The data object of a captured /api/user/self response body.  Only the
id field is consulted by the extraction step; absent or null ids are
modeled as none. -/
structure UserSelfData where
  id : Option Int
deriving DecidableEq, Repr

/-- A captured /api/user/self response body; the data field may be null. -/
structure UserSelfResponse where
  data : Option UserSelfData
deriving DecidableEq, Repr

/-- The terminal output of one login run: session token, user id, and the
optional user-info payload. -/
structure SessionResult where
  session : String
  apiUser : String
  userInfo : Option UserSelfData
deriving DecidableEq, Repr

/-- The localStorage fallback: none models a missing user key, some none a
string that fails to parse, some (some d) a parsed user object. -/
def localStorageUserData : Option (Option UserSelfData) → Option UserSelfData
  | some (some d) => some d
  | _ => none

/-- Which user-data object the extraction step ends up with: the captured
response data when the response arrived and carried a truthy data field,
otherwise the localStorage fallback. -/
def pickUserData : Option UserSelfResponse → Option (Option UserSelfData) → Option UserSelfData
  | some resp, l =>
    match resp.data with
    | some d => some d
    | none => localStorageUserData l
  | none, l => localStorageUserData l

/-- apiUser is computed as String(userData.id) when userData.id is truthy
(a JavaScript number 0 is falsy), otherwise null. -/
def apiUserFrom : Option UserSelfData → Option String
  | none => none
  | some u =>
    match u.id with
    | some i => if i != 0 then some (toString i) else none
    | none => none

/-- The session cookie value: cookies.find(c means c.name === "session")
followed by reading its value field. -/
def sessionCookieOf (cookies : List Cookie) : Option String :=
  (cookies.find? (fun c => c.name == "session")).map Cookie.value

/-- The final return of loginAndGetSession: a result object when both the
session cookie and apiUser are truthy, null otherwise. -/
def finalizeResult (sessionCookie apiUser : Option String) (userData : Option UserSelfData) :
    Option SessionResult :=
  match sessionCookie, apiUser with
  | some s, some a =>
    if s != "" && a != "" then some ⟨s, a, userData⟩ else none
  | _, _ => none

/-- The whole extraction step, wired together as in the source. -/
def extractSessionStep (u : Option UserSelfResponse) (l : Option (Option UserSelfData))
    (cookies : List Cookie) : Option SessionResult :=
  finalizeResult (sessionCookieOf cookies) (apiUserFrom (pickUserData u l)) (pickUserData u l)

/-- How one run of loginAndGetSession exits: every pre-extraction return
site and the catch handler return null (earlyNull); the only non-null exit
is the guarded return at the end of the extraction step. -/
inductive RunExit where
  | earlyNull
  | reachExtract (u : Option UserSelfResponse) (l : Option (Option UserSelfData))
      (cookies : List Cookie)

/-- The value a run of loginAndGetSession returns, as a function of how the
run exited. -/
def loginAndGetSession : RunExit → Option SessionResult
  | .earlyNull => none
  | .reachExtract u l cookies => extractSessionStep u l cookies

/-! ## Device-verification polling loop (checkin-github.js, step 5b)

The source loop re-reads the wall clock at each iteration and exits once
Date.now() - startTime is at least maxPollingTime = expireTime - startTime,
i.e. once the clock passes expireTime.  We model the clock as a function
times, where times k is the value of Date.now() at the k-th loop-condition
check, and the backend record store as fetch, where fetch k is the
github_device_code field returned by the k-th getAccountLoginInfo call
(none models a failed call, a missing data object or a null code field).
The loop itself becomes a fuel-indexed recursion; none signals exhausted
fuel, which the theorems rule out from the clock hypotheses. -/

/-- Terminal outcome of the polling loop: the operator-supplied code was
observed and filled, or the deadline passed with no code observed. -/
inductive PollOutcome where
  | Filled : String → PollOutcome
  | Expired : PollOutcome
deriving DecidableEq, Repr

/-- JavaScript String.prototype.trim: drop leading and trailing
whitespace. -/
def jsTrim (s : String) : String :=
  ⟨((s.toList.dropWhile Char.isWhitespace).reverse.dropWhile Char.isWhitespace).reverse⟩

/-- The source fill condition on a fetched code string:
code truthy and code.trim() not equal to the empty string. -/
def fillCondStr (c : String) : Bool := c != "" && jsTrim c != ""

/-- The fill condition on the fetched field, including the null check. -/
def fillCond : Option String → Bool
  | none => false
  | some c => fillCondStr c

/-- The polling while-loop.  At check k it exits Expired when the clock
has reached expireAt; otherwise it fetches the record, breaks with
Filled c on the first code passing the fill condition, and otherwise
sleeps and re-checks.  The pair also records the index of the terminal
check.  none is returned only when the fuel runs out. -/
def pollLoop (fetch : Nat → Option String) (times : Nat → Nat) (expireAt : Nat) :
    Nat → Nat → Option (PollOutcome × Nat)
  | 0, _ => none
  | fuel + 1, k =>
    if times k < expireAt then
      match fetch k with
      | some c =>
        if fillCondStr c then some (.Filled c, k)
        else pollLoop fetch times expireAt fuel (k + 1)
      | none => pollLoop fetch times expireAt fuel (k + 1)
    else some (.Expired, k)

/-- What the enclosing login run does after the polling loop: on Filled it
fills the on-page code field with the retrieved value and continues with
the rest of the flow; on Expired (deviceCodeFilled still false) it returns
null. -/
def afterPolling (out : Option (PollOutcome × Nat))
    (rest : String → Option SessionResult) : Option SessionResult :=
  match out with
  | some (.Filled c, _) => rest c
  | some (.Expired, _) => none
  | none => none

/-- A backend record whose deviceCode field becomes (and stays) the string
code from wall-clock time t on: a fetch at clock value times k returns the
code exactly when t has passed. -/
def storeFetch (code : String) (t : Nat) (times : Nat → Nat) : Nat → Option String :=
  fun k => if t ≤ times k then some code else none

/-- A concrete clock for counterexamples and witnesses: checks every
5000 ms starting at 0. -/
def ceTimes (k : Nat) : Nat := 5000 * k

/-- Replacing every fetched value that fails the fill condition (empty or
whitespace-only code) by none, i.e. by "no code provided yet". -/
def sanitizeFetch (fetch : Nat → Option String) : Nat → Option String :=
  fun k =>
    match fetch k with
    | some c => if fillCondStr c then some c else none
    | none => none

/-! ## Two-factor gate (checkin-github.js, step 5a) -/

/-- What the two-factor checkpoint decides right after credentials are
submitted. -/
inductive TwoFAOutcome where
  | abortNull
  | challenge (secret : String)
  | skip
deriving DecidableEq, Repr

/-- The gate itself: when the post-credentials URL contains the two-factor
path, a missing (falsy) TOTP secret aborts the run; a present secret
proceeds to the TOTP challenge; any other URL skips the checkpoint. -/
def twoFactorGate (afterLoginUrl : String) (twofaSecret : Option String) : TwoFAOutcome :=
  if strIncludes afterLoginUrl "/sessions/two-factor" then
    if jsTruthyOptStr twofaSecret then .challenge (twofaSecret.getD "") else .abortNull
  else .skip

/-- The run after the gate: abortNull is the immediate return null; in the
other cases the remaining login steps run (with the secret available on
the challenge path). -/
def runAfterTwoFAGate (o : TwoFAOutcome)
    (rest : Option String → Option SessionResult) : Option SessionResult :=
  match o with
  | .abortNull => none
  | .challenge s => rest (some s)
  | .skip => rest none

/-! ## AgentRouter cookie cleanup (checkin-github.js, finally block) -/

/-- The cookie cleanup executed on every exit path: when the base URL is
the AgentRouter provider, all cookies are cleared and only the cookies of
other domains are added back; otherwise the jar is untouched.  The guard
on a non-empty AgentRouter cookie list mirrors the source. -/
def cleanupAgentRouterCookies (baseUrl : String) (allCookies : List Cookie) : List Cookie :=
  if strIncludes baseUrl "agentrouter.org" then
    if (allCookies.filter (fun c => strIncludes c.domain "agentrouter.org")).length > 0 then
      allCookies.filter (fun c => !strIncludes c.domain "agentrouter.org")
    else allCookies
  else allCookies

/-! ## Error-count reporting policy (notify.js, executeSingleChangePassword) -/

/-- The four ways a single password-change run can end, as distinguished by
the source: browser initialization failure, success, a logical failure
carrying the is_api_error flag of the change result, or a thrown
exception. -/
inductive ChangeOutcome where
  | browserInitFailure (message : String)
  | changeSuccess (userInfo : String)
  | changeFailed (message : String) (is_api_error : Option Bool)
  | exceptionThrown (message : String)
deriving DecidableEq, Repr

/-- The updatePasswordChange call emitted for an outcome: status, optional
error reason, and the increment_error_count flag (none when the field is
not passed, as on the success path). -/
structure UpdateRecordCall where
  status : Nat
  error_reason : Option String
  increment_error_count : Option Bool
deriving DecidableEq, Repr

/-- executeSingleChangePassword reduced to its reporting effect: the
updatePasswordChange record it uploads and the success flag it returns.
The failed branch computes isApiError as is_api_error === true. -/
def executeSingleChangePassword : ChangeOutcome → UpdateRecordCall × Bool
  | .browserInitFailure m => (⟨3, some ("浏览器初始化失败: " ++ m), some false⟩, false)
  | .changeSuccess _ => (⟨2, none, none⟩, true)
  | .changeFailed m e => (⟨3, some m, some (e == some true)⟩, false)
  | .exceptionThrown m => (⟨3, some ("执行异常: " ++ m), some false⟩, false)

/-! ## Batch runners (checkin-github.js processAccounts and
notify.js executeBatchChangePassword)

Math.random() is modeled as a rational stream rand, with rand i the draw
used for the delay after the i-th account. -/

/-- getRandomDelay(min, max) from checkin-github.js:
Math.floor(Math.random() * (max - min + 1)) + min. -/
def getRandomDelay (mi ma : Nat) (r : ℚ) : Int :=
  ⌊r * ((ma : ℚ) - (mi : ℚ) + 1)⌋ + (mi : Int)

/-- randomDelay() from notify.js: Math.floor(Math.random() * 5000) + 5000. -/
def notifyRandomDelay (r : ℚ) : Int :=
  ⌊r * 5000⌋ + 5000

/-- An identity descriptor handed to the checkin batch runner. -/
structure CheckinAccount where
  account_id : String
  username : String
  password : String
deriving DecidableEq, Repr

/-- One entry of the checkin batch result list. -/
structure CheckinEntry where
  account_id : String
  username : String
  success : Bool
deriving DecidableEq, Repr

/-- processAccounts from checkin-github.js, with the login run abstracted
by runLogin (its Option result is exactly engine output: non-null means
success).  Returns the ordered per-identity result list and the list of
inter-account delays that were inserted (one after every non-final
account, drawn by randomDelay(5000, 7000)). -/
def processAccountsGo (runLogin : CheckinAccount → Option SessionResult) (rand : Nat → ℚ) :
    List CheckinAccount → Nat → List CheckinEntry × List Int
  | [], _ => ([], [])
  | a :: rest, i =>
    let entry : CheckinEntry := ⟨a.account_id, a.username, (runLogin a).isSome⟩
    let next := processAccountsGo runLogin rand rest (i + 1)
    match rest with
    | [] => (entry :: next.1, next.2)
    | _ :: _ => (entry :: next.1, getRandomDelay 5000 7000 (rand i) :: next.2)

/-- An account record handed to the password-change batch runner. -/
structure AccountData where
  record_id : String
  old_username : String
deriving DecidableEq, Repr

/-- One entry of the password-change batch result list. -/
structure BatchEntry where
  record_id : String
  old_username : String
  success : Bool
deriving DecidableEq, Repr

/-- The loop body of executeBatchChangePassword, with the per-account run
abstracted by runOne (its Bool is the success flag of
executeSingleChangePassword).  Accumulates the ordered result list, the
success and failure counters, and the inserted delays (one after every
non-final account, drawn by randomDelay()). -/
def executeBatchGo (runOne : AccountData → Bool) (rand : Nat → ℚ) :
    List AccountData → Nat → List BatchEntry × Nat × Nat × List Int
  | [], _ => ([], 0, 0, [])
  | a :: rest, i =>
    let ok := runOne a
    let entry : BatchEntry := ⟨a.record_id, a.old_username, ok⟩
    let next := executeBatchGo runOne rand rest (i + 1)
    let delays :=
      match rest with
      | [] => next.2.2.2
      | _ :: _ => notifyRandomDelay (rand i) :: next.2.2.2
    (entry :: next.1, (if ok then next.2.1 + 1 else next.2.1),
      (if ok then next.2.2.1 else next.2.2.1 + 1), delays)

/-- The aggregate object returned by executeBatchChangePassword. -/
structure BatchChangeSummary where
  total : Nat
  success : Nat
  failed : Nat
  results : List BatchEntry
deriving DecidableEq, Repr

/-- executeBatchChangePassword from notify.js: the returned aggregate plus
the (model-level) list of inserted inter-account delays. -/
def executeBatchChangePassword (runOne : AccountData → Bool) (rand : Nat → ℚ)
    (accountList : List AccountData) : BatchChangeSummary × List Int :=
  let g := executeBatchGo runOne rand accountList 0
  (⟨accountList.length, g.2.1, g.2.2.1, g.1⟩, g.2.2.2)

/-! ## Stealth payload (src/unnamed/part_000, stealthScript)

The payload is modeled by its effect on the page's observable fingerprint
surfaces, collected in PageState.  Fields that the payload overrides with
fixed constants are plain values; the overrides that wrap a pre-existing
function (permissions.query, WebGL getParameter, mediaDevices enumeration,
Function.prototype.toString) are modeled as transformers of the previous
observable behavior.  The tsOfToString field records what stringifying
Function.prototype.toString itself observably returns; the payload
captures the current value before wrapping and replays it from the proxy,
so the transformer leaves the observable unchanged. -/

/-- The observable answer of navigator.permissions.query for one
permission name: either the patched notifications answer (which reads
Notification.permission at call time) or whatever the pre-existing query
produced. -/
inductive PermAnswer where
  | notifPermission
  | native (tag : Nat)
deriving DecidableEq, Repr

/-- The observable battery object behind navigator.getBattery: the fixed
fake object installed by the payload, or a real one. -/
inductive BatteryObs where
  | fake
  | real (tag : Nat)
deriving DecidableEq, Repr

/-- The observable window.Notification object: the inert stub installed by
the payload, or a real one. -/
inductive NotificationObs where
  | stub
  | real (tag : Nat)
deriving DecidableEq, Repr

/-- One entry of the plugin list exposed by navigator.plugins. -/
structure PluginObs where
  name : String
  filename : String
  description : String
deriving DecidableEq, Repr

/-- One media device as reported by mediaDevices enumeration. -/
structure MediaDeviceObs where
  kind : String
deriving DecidableEq, Repr

/-- The observable fingerprint surfaces of a page environment that the
stealth payload touches. -/
structure PageState where
  webdriver : Option Bool
  chromeRuntimeId : Option String
  platform : String
  vendor : String
  productSub : String
  maxTouchPoints : Nat
  hardwareConcurrency : Nat
  deviceMemory : Nat
  plugins : List PluginObs
  languages : List String
  language : String
  permQuery : String → PermAnswer
  getParameter : Nat → String
  tsOfPermQuery : String
  tsOfToString : String
  docHidden : Bool
  visibilityState : String
  getBattery : Option BatteryObs
  notification : Option NotificationObs
  mediaDevices : Option (List MediaDeviceObs)
  availWidth : Nat
  availHeight : Nat
  screenWidth : Nat
  screenHeight : Nat
  colorDepth : Nat
  pixelDepth : Nat
  timezoneOffset : Int

/-- The fixed plugin list the payload installs (measure 4). -/
def stealthPlugins : List PluginObs :=
  [⟨"PDF Viewer", "internal-pdf-viewer", "Portable Document Format"⟩,
   ⟨"Chrome PDF Viewer", "mhjfbmdgcfjbbpaeojofohoefgiehjai", "Portable Document Format"⟩,
   ⟨"Native Client", "internal-nacl-plugin", "Native Client Executable"⟩]

/-- Measure 6: wrap permissions.query so that the notifications permission
is answered from Notification.permission and everything else is delegated
to the previous query function. -/
def overridePermQuery (q : String → PermAnswer) : String → PermAnswer :=
  fun name => if name = "notifications" then .notifPermission else q name

/-- Measure 7: wrap WebGL getParameter so that the vendor and renderer
parameters (37445 and 37446) report fixed strings and everything else is
delegated. -/
def overrideGetParameter (g : Nat → String) : Nat → String :=
  fun p =>
    if p = 37445 then "Intel Inc."
    else if p = 37446 then "Intel(R) Iris(R) Xe Graphics"
    else g p

/-- Measure 10: replace navigator.getBattery with the fixed fake battery,
but only when the API exists (the source guards with
if (navigator.getBattery)). -/
def overrideBattery (b : Option BatteryObs) : Option BatteryObs :=
  b.map (fun _ => .fake)

/-- Measure 11: install the Notification stub only when window.Notification
is absent (the source guards with if (!window.Notification)). -/
def overrideNotification : Option NotificationObs → Option NotificationObs
  | none => some .stub
  | some x => some x

/-- The device filter of measure 12: drop audio and video inputs. -/
def filterMediaDevices (ds : List MediaDeviceObs) : List MediaDeviceObs :=
  ds.filter (fun d => d.kind != "audioinput" && d.kind != "videoinput")

/-- Measure 12: wrap enumerateDevices with the device filter, only when
mediaDevices exists. -/
def overrideMediaDevices (m : Option (List MediaDeviceObs)) : Option (List MediaDeviceObs) :=
  m.map filterMediaDevices

/-- The effect of evaluating stealthScript once on the observable page
state (measures 1 through 14, in source order by field). -/
def applyStealth (s : PageState) : PageState :=
  { webdriver := none
    chromeRuntimeId := some "dfhodfhdfhdfhdfhdfhdfhdfhdfhdfhdf"
    platform := "Win32"
    vendor := "Google Inc."
    productSub := "20030107"
    maxTouchPoints := 0
    hardwareConcurrency := 8
    deviceMemory := 8
    plugins := stealthPlugins
    languages := ["zh-CN", "zh", "en-US", "en"]
    language := "zh-CN"
    permQuery := overridePermQuery s.permQuery
    getParameter := overrideGetParameter s.getParameter
    tsOfPermQuery := "function query() \x7b [native code] \x7d"
    tsOfToString := s.tsOfToString
    docHidden := false
    visibilityState := "visible"
    getBattery := overrideBattery s.getBattery
    notification := overrideNotification s.notification
    mediaDevices := overrideMediaDevices s.mediaDevices
    availWidth := 1920
    availHeight := 1040
    screenWidth := 1920
    screenHeight := 1080
    colorDepth := 24
    pixelDepth := 24
    timezoneOffset := -480 }

/-- Reading a JavaScript object that may be absent: touching a property of
an absent object throws a TypeError. -/
def jsGet {α : Type} (o : Option α) (errMsg : String) : Except String α :=
  match o with
  | some a => .ok a
  | none => .error errMsg

/-- Measure 10 with throw effects made explicit: the existence guard means
the battery object is only touched when present. -/
def batteryOverrideE (b : Option BatteryObs) : Except String (Option BatteryObs) :=
  if b.isSome then (jsGet b "TypeError: navigator.getBattery is not a function").map
    (fun _ => some .fake)
  else pure b

/-- Measure 11 with throw effects made explicit: the stub is created from
a fresh object literal, so no absent API is ever touched. -/
def notificationOverrideE (n : Option NotificationObs) : Except String (Option NotificationObs) :=
  if n.isSome then pure n else pure (some .stub)

/-- Evaluating stealthScript with the throw effects of the two optional
APIs (battery, notifications) made explicit; all other measures touch only
surfaces that every page environment provides. -/
def applyStealthE (s : PageState) : Except String PageState := do
  let b ← batteryOverrideE s.getBattery
  let n ← notificationOverrideE s.notification
  pure { applyStealth s with getBattery := b, notification := n }

/-- A concrete page environment with both optional APIs absent. -/
def ceNoApis : PageState :=
  { webdriver := some true
    chromeRuntimeId := none
    platform := "Linux x86_64"
    vendor := ""
    productSub := ""
    maxTouchPoints := 0
    hardwareConcurrency := 4
    deviceMemory := 4
    plugins := []
    languages := ["en-US"]
    language := "en-US"
    permQuery := fun _ => .native 0
    getParameter := fun _ => ""
    tsOfPermQuery := "function query() \x7b [native code] \x7d"
    tsOfToString := "function toString() \x7b [native code] \x7d"
    docHidden := true
    visibilityState := "hidden"
    getBattery := none
    notification := none
    mediaDevices := some [⟨"audioinput"⟩, ⟨"audiooutput"⟩]
    availWidth := 1280
    availHeight := 1024
    screenWidth := 1280
    screenHeight := 1024
    colorDepth := 24
    pixelDepth := 24
    timezoneOffset := 0 }

/-! ## Concrete inputs used by witnesses and counterexamples -/

/-- A captured user-info response with id 42. -/
def wResp : Option UserSelfResponse := some ⟨some ⟨some 42⟩⟩

/-- A cookie jar containing one session cookie. -/
def wCookies : List Cookie := [⟨"session", "tok123", "anyrouter.top"⟩]

/-- A cookie on the AgentRouter domain. -/
def wArCookie : Cookie := ⟨"session", "s1", ".agentrouter.org"⟩

/-- A cookie on a different domain. -/
def wOtherCookie : Cookie := ⟨"session", "s2", "anyrouter.top"⟩

/-- Three password-change records. -/
def wAccountList : List AccountData := [⟨"r1", "u1"⟩, ⟨"r2", "u2"⟩, ⟨"r3", "u3"⟩]

/-- A deterministic per-account outcome that fails exactly record r2. -/
def wRunOne (a : AccountData) : Bool := a.record_id != "r2"

/-- A fixed random stream. -/
def wRand (_ : Nat) : ℚ := 1 / 2

/-- Two checkin identities. -/
def wCheckinAccounts : List CheckinAccount := [⟨"a1", "u1", "p1"⟩, ⟨"a2", "u2", "p2"⟩]

/-- A deterministic login engine that succeeds only for account a1. -/
def wRunLogin (a : CheckinAccount) : Option SessionResult :=
  if a.account_id == "a1" then some ⟨"tok", "7", none⟩ else none

/-! ## Re-evaluating the stealth payload

The payload installs its fixed-value overrides with Object.defineProperty
and getter-only descriptors, so the created own accessor properties
default to configurable false.  A fresh page has none of them; one
completed evaluation installs them all.  Re-defining such a property with
a fresh getter closure throws a TypeError (ECMAScript
ValidateAndApplyPropertyDescriptor), and the webdriver defineProperty of
measure 1 is the first such call in the script, so a second evaluation
aborts there.  The preceding prototype delete of measure 1 is observably
a no-op on an already-masked page, so the aborted run changes nothing. -/

/-- A page environment: the observable surfaces plus whether the
payload's non-configurable own accessors are already installed (false on
a fresh page, true after one completed evaluation). -/
structure PageEnv where
  state : PageState
  stealthInstalled : Bool

/-- Object.defineProperty with a getter-only descriptor: on an absent own
property it creates a non-configurable accessor and succeeds; against the
own non-configurable accessor installed by a previous run it throws,
because the fresh getter closure differs from the recorded one. -/
def definePropertyGetter (alreadyInstalled : Bool) (propName : String) : Except String Unit :=
  if alreadyInstalled then .error ("TypeError: Cannot redefine property: " ++ propName)
  else .ok ()

/-- One full evaluation of stealthScript on a page environment, returning
the resulting environment and the uncaught exception, if any.  The
webdriver defineProperty of measure 1 is the first statement that can
throw: on an already-installed page evaluation aborts there with the page
state unchanged (only the no-op prototype delete ran before it); on a
fresh page every measure runs, the combined effect on the observable
surfaces is applyStealth, and the non-configurable accessors are now
installed. -/
def evalStealthScript (e : PageEnv) : PageEnv × Option String :=
  match definePropertyGetter e.stealthInstalled "webdriver" with
  | .error msg => (e, some msg)
  | .ok _ => (⟨applyStealth e.state, true⟩, none)

/-! ## Helper lemmas -/

/-- The final guard of the extraction step succeeds exactly when both
inputs are truthy. -/
theorem finalizeResult_isSome (sc au : Option String) (ud : Option UserSelfData) :
    (finalizeResult sc au ud).isSome = (jsTruthyOptStr sc && jsTruthyOptStr au) := by
  cases sc with
  | none => simp [finalizeResult, jsTruthyOptStr]
  | some s =>
    cases au with
    | none => simp [finalizeResult, jsTruthyOptStr]
    | some a =>
      cases hb : (s != "" && a != "") <;> simp [finalizeResult, jsTruthyOptStr, hb]

/-- When the final guard returns a result object, its fields are exactly
the two truthy inputs. -/
theorem finalizeResult_some (sc au : Option String) (ud : Option UserSelfData)
    (r : SessionResult) (h : finalizeResult sc au ud = some r) :
    sc = some r.session ∧ r.session ≠ "" ∧ au = some r.apiUser ∧ r.apiUser ≠ "" := by
  cases sc with
  | none => simp [finalizeResult] at h
  | some s =>
    cases au with
    | none => simp [finalizeResult] at h
    | some a =>
      cases hb : (s != "" && a != "") with
      | false => simp [finalizeResult, hb] at h
      | true =>
        have hs : s ≠ "" := by
          intro he; subst he; simp at hb
        have ha : a ≠ "" := by
          intro he; subst he; simp at hb
        simp only [finalizeResult] at h
        rw [hb, if_pos rfl] at h
        rw [Option.some_inj] at h
        subst h
        exact ⟨rfl, hs, rfl, ha⟩

/-! ## C1: extraction is all-or-nothing -/

/-- C1: a run of loginAndGetSession returns a non-null SessionResult only
when both the session cookie and the user identifier were obtained at the
extraction step; the returned fields are exactly the obtained values, and
a run where either piece is missing (or any early-exit run) returns null,
never a partial result. -/
theorem loginAndGetSession_all_or_nothing (u : Option UserSelfResponse)
    (l : Option (Option UserSelfData)) (c : List Cookie) :
    ((loginAndGetSession (.reachExtract u l c)).isSome =
      (jsTruthyOptStr (sessionCookieOf c) && jsTruthyOptStr (apiUserFrom (pickUserData u l)))) ∧
    (∀ r, loginAndGetSession (.reachExtract u l c) = some r →
      sessionCookieOf c = some r.session ∧ r.session ≠ "" ∧
      apiUserFrom (pickUserData u l) = some r.apiUser ∧ r.apiUser ≠ "") ∧
    loginAndGetSession .earlyNull = none := by
  refine ⟨?_, ?_, rfl⟩
  · exact finalizeResult_isSome (sessionCookieOf c) (apiUserFrom (pickUserData u l))
      (pickUserData u l)
  · intro r h
    exact finalizeResult_some (sessionCookieOf c) (apiUserFrom (pickUserData u l))
      (pickUserData u l) r h

/-- Witness for C1: a concrete extraction state with both pieces present
yields exactly the obtained session cookie and user id. -/
theorem loginAndGetSession_all_or_nothing_witness :
    sessionCookieOf wCookies = some "tok123" ∧ "tok123" ≠ "" ∧
    apiUserFrom (pickUserData wResp none) = some "42" ∧ "42" ≠ "" :=
  (loginAndGetSession_all_or_nothing wResp none wCookies).2.1 ⟨"tok123", "42", some ⟨some 42⟩⟩
    (by decide)

/-! ## Polling-loop step lemmas -/

/-- When the clock has reached the deadline, the loop check exits Expired
at once. -/
theorem pollLoop_succ_expired (fetch : Nat → Option String) (times : Nat → Nat)
    (expireAt fuel k : Nat) (h : ¬ times k < expireAt) :
    pollLoop fetch times expireAt (fuel + 1) k = some (.Expired, k) := by
  simp [pollLoop, h]

/-- When the clock is within the deadline and the fetched code passes the
fill condition, the loop breaks Filled with that exact code. -/
theorem pollLoop_succ_filled (fetch : Nat → Option String) (times : Nat → Nat)
    (expireAt fuel k : Nat) (c : String) (h : times k < expireAt)
    (hf : fetch k = some c) (hc : fillCondStr c = true) :
    pollLoop fetch times expireAt (fuel + 1) k = some (.Filled c, k) := by
  simp [pollLoop, h, hf, hc]

/-- When the clock is within the deadline and the fetched value fails the
fill condition, the loop sleeps and continues with the next check. -/
theorem pollLoop_succ_continue (fetch : Nat → Option String) (times : Nat → Nat)
    (expireAt fuel k : Nat) (h : times k < expireAt) (h2 : fillCond (fetch k) = false) :
    pollLoop fetch times expireAt (fuel + 1) k = pollLoop fetch times expireAt fuel (k + 1) := by
  cases hf : fetch k with
  | none => simp [pollLoop, h, hf]
  | some c =>
    rw [hf] at h2
    simp only [fillCond] at h2
    simp [pollLoop, h, hf, h2]

/-- The loop run from check k reaches the first fillable check k0 and
breaks Filled there with the fetched code, given enough fuel. -/
theorem pollLoop_reaches_fill (fetch : Nat → Option String) (times : Nat → Nat)
    (expireAt k0 : Nat) (c : String)
    (hf : fetch k0 = some c) (hc : fillCondStr c = true) :
    ∀ fuel k, k ≤ k0 → k0 - k < fuel →
      (∀ j, k ≤ j → j < k0 → fillCond (fetch j) = false) →
      (∀ j, k ≤ j → j ≤ k0 → times j < expireAt) →
      pollLoop fetch times expireAt fuel k = some (.Filled c, k0) := by
  intro fuel
  induction fuel with
  | zero => intro k hk hfuel hskip hlt; omega
  | succ fuel ih =>
    intro k hk hfuel hskip hlt
    rcases Nat.eq_or_lt_of_le hk with heq | hklt
    · subst heq
      exact pollLoop_succ_filled _ _ _ _ _ _ (hlt _ le_rfl le_rfl) hf hc
    · rw [pollLoop_succ_continue _ _ _ _ _ (hlt _ le_rfl hk) (hskip _ le_rfl hklt)]
      exact ih (k + 1) hklt (by omega) (fun j hj1 hj2 => hskip j (by omega) hj2)
        (fun j hj1 hj2 => hlt j (by omega) hj2)

/-- If no check ever observes a fillable code, the loop runs to the first
check kE at or past the deadline and exits Expired there, given enough
fuel. -/
theorem pollLoop_reaches_expired (fetch : Nat → Option String) (times : Nat → Nat)
    (expireAt kE : Nat)
    (hnever : ∀ j, fillCond (fetch j) = false)
    (hmin : ∀ j, j < kE → times j < expireAt)
    (hkE : expireAt ≤ times kE) :
    ∀ fuel k, k ≤ kE → kE - k < fuel →
      pollLoop fetch times expireAt fuel k = some (.Expired, kE) := by
  intro fuel
  induction fuel with
  | zero => intro k hk hfuel; omega
  | succ fuel ih =>
    intro k hk hfuel
    rcases Nat.eq_or_lt_of_le hk with heq | hklt
    · subst heq
      exact pollLoop_succ_expired _ _ _ _ _ (by omega)
    · rw [pollLoop_succ_continue _ _ _ _ _ (hmin k hklt) (hnever k)]
      exact ih (k + 1) hklt (by omega)

/-! ## C3: expiry with no code -/

/-- C3: if the deviceCode is never observed in fillable form, the polling
loop performs its checks 0 through kE - 1 strictly before expireAt, exits
at the first check kE whose clock value is at or past expireAt, reports
the single terminal Expired outcome (the same one for any sufficient
fuel, so it is never double-reported), and the enclosing login run then
returns null. -/
theorem deviceVerification_expired_returns_null (fetch : Nat → Option String)
    (times : Nat → Nat) (expireAt kE fuel : Nat)
    (hnever : ∀ j, fillCond (fetch j) = false)
    (hmin : ∀ j, j < kE → times j < expireAt)
    (hkE : expireAt ≤ times kE)
    (hfuel : kE < fuel) :
    pollLoop fetch times expireAt fuel 0 = some (.Expired, kE) ∧
    (∀ fuel2, kE < fuel2 → pollLoop fetch times expireAt fuel2 0 = some (.Expired, kE)) ∧
    (∀ rest, afterPolling (pollLoop fetch times expireAt fuel 0) rest = none) := by
  have h1 := pollLoop_reaches_expired fetch times expireAt kE hnever hmin hkE fuel 0
    (Nat.zero_le _) (by omega)
  refine ⟨h1, ?_, ?_⟩
  · intro fuel2 hf2
    exact pollLoop_reaches_expired fetch times expireAt kE hnever hmin hkE fuel2 0
      (Nat.zero_le _) (by omega)
  · intro rest
    rw [h1]
    rfl

/-- Witness for C3: with a record store that never supplies a code and
5-second checks, a 12-second deadline expires at the fourth check and the
run returns null. -/
theorem deviceVerification_expired_returns_null_witness :
    pollLoop (fun _ => none) ceTimes 12000 4 0 = some (.Expired, 3) ∧
    afterPolling (pollLoop (fun _ => none) ceTimes 12000 4 0)
      (fun c => some ⟨c, "1", none⟩) = none := by
  have h := deviceVerification_expired_returns_null (fun _ => none) ceTimes 12000 3 4
    (fun _ => rfl) (by decide) (by decide) (by decide)
  exact ⟨h.1, h.2.2 _⟩

/-! ## C2: fill before expiry -/

/-- C2 counterexample: with checks every 5000 ms and a deadline at 6000 ms,
a deviceCode that becomes non-empty (and passes the fill condition) at
time 5500 — strictly before expireAt — is never observed: the next check
falls at 10000 ms, past the deadline, so the loop exits Expired instead of
terminating in the Filled outcome within one polling interval of 5500. -/
theorem deviceCode_filled_counterexample :
    (5500 < 6000) ∧ fillCondStr "ABCDEF" = true ∧
    pollLoop (storeFetch "ABCDEF" 5500 ceTimes) ceTimes 6000 10 0 = some (.Expired, 2) :=
  ⟨by norm_num, by decide, by decide⟩

/-- C2 (amended): if the stored deviceCode becomes non-empty (with
non-whitespace content) at a time t such that some polling check happens
at or after t and strictly before expireAt, then the loop terminates
Filled at the first such check k0 — which lies within one inter-poll gap
of t whenever a check preceded t (conclusion: k0 = 0 or
times k0 < t + step, for any bound step on consecutive check gaps; in the
source the gap is the randomized 5000 to 5500 ms sleep plus the query
round-trip) — and the value filled into the page's code field is exactly
the stored deviceCode, with no truncation or transformation. -/
theorem deviceCode_polling_filled (code : String) (times : Nat → Nat)
    (t k0 expireAt step fuel : Nat)
    (hcode : jsTrim code ≠ "")
    (ht : t ≤ times k0)
    (hbefore : ∀ j, j < k0 → times j < t)
    (hdl : times k0 < expireAt)
    (hfuel : k0 < fuel)
    (hstep : ∀ j, times (j + 1) ≤ times j + step) :
    pollLoop (storeFetch code t times) times expireAt fuel 0 = some (.Filled code, k0) ∧
    (∀ rest, afterPolling (pollLoop (storeFetch code t times) times expireAt fuel 0) rest
      = rest code) ∧
    (k0 = 0 ∨ times k0 < t + step) := by
  have hcne : code ≠ "" := by
    intro he
    apply hcode
    rw [he]
    rfl
  have hcfill : fillCondStr code = true := by
    unfold fillCondStr
    rw [Bool.and_eq_true, bne_iff_ne, bne_iff_ne]
    exact ⟨hcne, hcode⟩
  have hk0 : storeFetch code t times k0 = some code := by
    show (if t ≤ times k0 then some code else none) = some code
    rw [if_pos ht]
  have h1 := pollLoop_reaches_fill (storeFetch code t times) times expireAt k0 code hk0 hcfill
    fuel 0 (Nat.zero_le _) (by omega)
    (fun j hj1 hj2 => by
      have hjt : times j < t := hbefore j hj2
      have hnone : storeFetch code t times j = none := by
        show (if t ≤ times j then some code else none) = none
        rw [if_neg (by omega)]
      rw [hnone]
      rfl)
    (fun j hj1 hj2 => by
      rcases Nat.eq_or_lt_of_le hj2 with he | hjlt
      · subst he; exact hdl
      · have := hbefore j hjlt
        omega)
  refine ⟨h1, fun rest => by rw [h1]; rfl, ?_⟩
  cases k0 with
  | zero => exact Or.inl rfl
  | succ m =>
    refine Or.inr ?_
    have h2 := hstep m
    have h3 := hbefore m (Nat.lt_succ_self m)
    omega

/-- Witness for C2 (amended): a code present from time 0 is observed and
filled exactly at the very first check. -/
theorem deviceCode_polling_filled_witness :
    pollLoop (storeFetch "XYZ" 0 ceTimes) ceTimes 12000 3 0 = some (.Filled "XYZ", 0) ∧
    (0 = 0 ∨ ceTimes 0 < 0 + 5500) := by
  have h := deviceCode_polling_filled "XYZ" ceTimes 0 0 12000 5500 3
    (by decide) (Nat.zero_le _) (fun j hj => absurd hj (Nat.not_lt_zero j))
    (by decide) (by decide)
    (fun j => by show 5000 * (j + 1) ≤ 5000 * j + 5500; omega)
  exact ⟨h.1, h.2.2⟩

/-! ## C10: whitespace-only codes are not consumed -/

/-- C10: a fetched deviceCode that is empty or whitespace-only fails the
fill condition, and the polling loop behaves identically whether such
values are fetched or no value at all is: the loop never transitions to
Filled on them and keeps polling until a code with non-whitespace content
appears or the deadline passes. -/
theorem pollLoop_whitespace_ignored (fetch : Nat → Option String) (times : Nat → Nat)
    (expireAt : Nat) :
    (∀ fuel k, pollLoop (sanitizeFetch fetch) times expireAt fuel k
        = pollLoop fetch times expireAt fuel k) ∧
    (∀ c, jsTrim c = "" → fillCond (some c) = false) := by
  constructor
  · intro fuel
    induction fuel with
    | zero => intro k; rfl
    | succ fuel ih =>
      intro k
      by_cases htk : times k < expireAt
      · cases hf : fetch k with
        | none =>
          have hs : sanitizeFetch fetch k = none := by simp [sanitizeFetch, hf]
          rw [pollLoop_succ_continue _ _ _ _ _ htk (by rw [hs]; rfl),
            pollLoop_succ_continue _ _ _ _ _ htk (by rw [hf]; rfl), ih]
        | some c =>
          cases hfc : fillCondStr c with
          | true =>
            have hs : sanitizeFetch fetch k = some c := by simp [sanitizeFetch, hf, hfc]
            rw [pollLoop_succ_filled _ _ _ _ _ _ htk hs hfc,
              pollLoop_succ_filled _ _ _ _ _ _ htk hf hfc]
          | false =>
            have hs : sanitizeFetch fetch k = none := by simp [sanitizeFetch, hf, hfc]
            rw [pollLoop_succ_continue _ _ _ _ _ htk (by rw [hs]; rfl),
              pollLoop_succ_continue _ _ _ _ _ htk
                (by rw [hf]; simpa [fillCond] using hfc), ih]
      · rw [pollLoop_succ_expired _ _ _ _ _ htk, pollLoop_succ_expired _ _ _ _ _ htk]
  · intro c hc
    simp [fillCond, fillCondStr, hc]

/-- Witness for C10: a store that always answers with a whitespace-only
code behaves like a store answering nothing, and the whitespace-only code
fails the fill condition. -/
theorem pollLoop_whitespace_ignored_witness :
    pollLoop (sanitizeFetch (fun _ => some "   ")) ceTimes 12000 5 0
      = pollLoop (fun _ => some "   ") ceTimes 12000 5 0 ∧
    fillCond (some "   ") = false := by
  have h := pollLoop_whitespace_ignored (fun _ => some "   ") ceTimes 12000
  exact ⟨h.1 5 0, h.2 "   " (by decide)⟩

/-! ## C6: missing TOTP secret aborts -/

/-- C6: when the post-credentials URL contains the provider two-factor
path and no TOTP secret was supplied (null or empty, both falsy), the gate
decides abortNull and the run returns null no matter what the remaining
login steps would have produced, i.e. without attempting them. -/
theorem twoFactor_missing_secret_aborts (afterLoginUrl : String) (twofaSecret : Option String)
    (hurl : strIncludes afterLoginUrl "/sessions/two-factor" = true)
    (hsec : jsTruthyOptStr twofaSecret = false) :
    twoFactorGate afterLoginUrl twofaSecret = .abortNull ∧
    (∀ rest, runAfterTwoFAGate (twoFactorGate afterLoginUrl twofaSecret) rest = none) := by
  have h1 : twoFactorGate afterLoginUrl twofaSecret = .abortNull := by
    unfold twoFactorGate
    rw [if_pos hurl, if_neg (by simp [hsec])]
  exact ⟨h1, fun rest => by rw [h1]; rfl⟩

/-- Witness for C6: the concrete GitHub two-factor URL with no secret
aborts even though the remaining steps would have succeeded. -/
theorem twoFactor_missing_secret_aborts_witness :
    twoFactorGate "https://github.com/sessions/two-factor" none = .abortNull ∧
    runAfterTwoFAGate (twoFactorGate "https://github.com/sessions/two-factor" none)
      (fun _ => some ⟨"tok", "1", none⟩) = none := by
  have h := twoFactor_missing_secret_aborts "https://github.com/sessions/two-factor" none
    (by decide) rfl
  exact ⟨h.1, h.2 _⟩

/-! ## C7: error-count reporting policy -/

/-- C7: a browser-launch/initialization failure is always reported with
increment_error_count false, as is a thrown exception; a logical change
failure is reported with increment_error_count equal to the test
is_api_error === true (so it is counted exactly when the flag is the
boolean true); the success path passes no increment_error_count field at
all. -/
theorem errorCount_policy :
    (∀ m, ((executeSingleChangePassword (.browserInitFailure m)).1).increment_error_count
        = some false) ∧
    (∀ m e, ((executeSingleChangePassword (.changeFailed m e)).1).increment_error_count
        = some (e == some true)) ∧
    (∀ m, ((executeSingleChangePassword (.exceptionThrown m)).1).increment_error_count
        = some false) ∧
    (∀ s, ((executeSingleChangePassword (.changeSuccess s)).1).increment_error_count = none) :=
  ⟨fun _ => rfl, fun _ _ => rfl, fun _ => rfl, fun _ => rfl⟩

/-! ## C9: AgentRouter cookie cleanup -/

/-- C9: when the base URL is the non-sticky AgentRouter provider, the
cleanup removes every cookie whose domain includes agentrouter.org from
the jar, and every cookie of any other domain that was present before
cleanup is still present after cleanup. -/
theorem agentrouter_cleanup (baseUrl : String) (allCookies : List Cookie)
    (h : strIncludes baseUrl "agentrouter.org" = true) :
    (∀ c ∈ cleanupAgentRouterCookies baseUrl allCookies,
      strIncludes c.domain "agentrouter.org" = false) ∧
    (∀ c ∈ allCookies, strIncludes c.domain "agentrouter.org" = false →
      c ∈ cleanupAgentRouterCookies baseUrl allCookies) := by
  unfold cleanupAgentRouterCookies
  rw [if_pos h]
  by_cases hn :
      (allCookies.filter (fun c => strIncludes c.domain "agentrouter.org")).length > 0
  · rw [if_pos hn]
    constructor
    · intro c hc
      have h2 := (List.mem_filter.mp hc).2
      simpa using h2
    · intro c hc hdom
      exact List.mem_filter.mpr ⟨hc, by simp [hdom]⟩
  · rw [if_neg hn]
    constructor
    · intro c hc
      have hz : (allCookies.filter (fun c => strIncludes c.domain "agentrouter.org")) = [] := by
        have := Nat.eq_zero_of_not_pos hn
        exact List.length_eq_zero.mp this
      have h3 := List.filter_eq_nil_iff.mp hz c hc
      simpa using h3
    · intro c hc _
      exact hc

/-- Witness for C9: after cleanup on an AgentRouter run, the cookie of the
other domain is still in the jar. -/
theorem agentrouter_cleanup_witness :
    wOtherCookie ∈ cleanupAgentRouterCookies "https://agentrouter.org" [wArCookie, wOtherCookie] :=
  (agentrouter_cleanup "https://agentrouter.org" [wArCookie, wOtherCookie] (by decide)).2
    wOtherCookie (by decide) (by decide)

/-! ## C5: batch aggregation and delays -/

/-- Lower and upper bounds of getRandomDelay under a unit-interval random
draw. -/
theorem getRandomDelay_bounds (mi ma : Nat) (r : ℚ) (hle : mi ≤ ma)
    (h0 : 0 ≤ r) (h1 : r < 1) :
    (mi : Int) ≤ getRandomDelay mi ma r ∧ getRandomDelay mi ma r ≤ (ma : Int) := by
  unfold getRandomDelay
  have hmm : (mi : ℚ) ≤ (ma : ℚ) := by exact_mod_cast hle
  have hR : (0 : ℚ) < (ma : ℚ) - (mi : ℚ) + 1 := by linarith
  constructor
  · have hfl : (0 : Int) ≤ ⌊r * ((ma : ℚ) - (mi : ℚ) + 1)⌋ :=
      Int.floor_nonneg.mpr (mul_nonneg h0 (le_of_lt hR))
    omega
  · have hlt : r * ((ma : ℚ) - (mi : ℚ) + 1) < ((ma : ℚ) - (mi : ℚ) + 1) := by
      nlinarith
    have hfl2 : ⌊r * ((ma : ℚ) - (mi : ℚ) + 1)⌋ < (ma : Int) - (mi : Int) + 1 := by
      apply Int.floor_lt.mpr
      push_cast
      exact hlt
    omega

/-- The notify.js inter-account delay is at least its 5000 ms minimum. -/
theorem notifyRandomDelay_ge (r : ℚ) (h0 : 0 ≤ r) : 5000 ≤ notifyRandomDelay r := by
  unfold notifyRandomDelay
  have hfl : (0 : Int) ≤ ⌊r * 5000⌋ :=
    Int.floor_nonneg.mpr (mul_nonneg h0 (by norm_num))
  omega

/-- The two filters of a boolean predicate partition a list's length. -/
theorem length_filter_partition {α : Type} (p : α → Bool) (l : List α) :
    (l.filter p).length + (l.filter (fun a => !p a)).length = l.length := by
  induction l with
  | nil => rfl
  | cons a t ih =>
    cases h : p a <;> simp [List.filter_cons, h] <;> omega

/-- The batch loop results list is the ordered per-account map. -/
theorem executeBatchGo_results (runOne : AccountData → Bool) (rand : Nat → ℚ) :
    ∀ (l : List AccountData) (i : Nat),
      (executeBatchGo runOne rand l i).1
        = l.map (fun a => (⟨a.record_id, a.old_username, runOne a⟩ : BatchEntry)) := by
  intro l
  induction l with
  | nil => intro i; rfl
  | cons a rest ih =>
    intro i
    show (⟨a.record_id, a.old_username, runOne a⟩ : BatchEntry)
        :: (executeBatchGo runOne rand rest (i + 1)).1
      = (a :: rest).map (fun a => (⟨a.record_id, a.old_username, runOne a⟩ : BatchEntry))
    rw [List.map_cons, ih]

/-- The batch loop success counter counts the succeeding accounts. -/
theorem executeBatchGo_success (runOne : AccountData → Bool) (rand : Nat → ℚ) :
    ∀ (l : List AccountData) (i : Nat),
      (executeBatchGo runOne rand l i).2.1 = (l.filter (fun a => runOne a)).length := by
  intro l
  induction l with
  | nil => intro i; rfl
  | cons a rest ih =>
    intro i
    show (if runOne a then (executeBatchGo runOne rand rest (i + 1)).2.1 + 1
          else (executeBatchGo runOne rand rest (i + 1)).2.1)
        = ((a :: rest).filter (fun x => runOne x)).length
    rw [ih, List.filter_cons]
    cases h : runOne a <;> simp [h]

/-- The batch loop failure counter counts the failing accounts. -/
theorem executeBatchGo_failed (runOne : AccountData → Bool) (rand : Nat → ℚ) :
    ∀ (l : List AccountData) (i : Nat),
      (executeBatchGo runOne rand l i).2.2.1 = (l.filter (fun a => !runOne a)).length := by
  intro l
  induction l with
  | nil => intro i; rfl
  | cons a rest ih =>
    intro i
    show (if runOne a then (executeBatchGo runOne rand rest (i + 1)).2.2.1
          else (executeBatchGo runOne rand rest (i + 1)).2.2.1 + 1)
        = ((a :: rest).filter (fun x => !runOne x)).length
    rw [ih, List.filter_cons]
    cases h : runOne a <;> simp [h]

/-- The batch loop inserts exactly one delay per non-final account. -/
theorem executeBatchGo_delaysLen (runOne : AccountData → Bool) (rand : Nat → ℚ) :
    ∀ (l : List AccountData) (i : Nat),
      (executeBatchGo runOne rand l i).2.2.2.length = l.length - 1 := by
  intro l
  induction l with
  | nil => intro i; rfl
  | cons a rest ih =>
    intro i
    cases rest with
    | nil => rfl
    | cons b t =>
      show (notifyRandomDelay (rand i)
            :: (executeBatchGo runOne rand (b :: t) (i + 1)).2.2.2).length
          = (a :: b :: t).length - 1
      rw [List.length_cons, ih (i + 1)]
      simp

/-- Every delay the batch loop inserts respects the 5000 ms minimum. -/
theorem executeBatchGo_delays_ge (runOne : AccountData → Bool) (rand : Nat → ℚ)
    (hr : ∀ i, 0 ≤ rand i) :
    ∀ (l : List AccountData) (i : Nat) (d : Int),
      d ∈ (executeBatchGo runOne rand l i).2.2.2 → 5000 ≤ d := by
  intro l
  induction l with
  | nil =>
    intro i d hd
    exact absurd hd (List.not_mem_nil d)
  | cons a rest ih =>
    intro i d hd
    cases rest with
    | nil =>
      have hd2 : d ∈ ([] : List Int) := hd
      exact absurd hd2 (List.not_mem_nil d)
    | cons b t =>
      have hd2 : d ∈ notifyRandomDelay (rand i)
          :: (executeBatchGo runOne rand (b :: t) (i + 1)).2.2.2 := hd
      rcases List.mem_cons.mp hd2 with hd3 | hd3
      · rw [hd3]
        exact notifyRandomDelay_ge (rand i) (hr i)
      · exact ih (i + 1) d hd3

/-- The checkin batch results list is the ordered per-identity map, with
success true exactly when the login run returned non-null. -/
theorem processAccountsGo_results (runLogin : CheckinAccount → Option SessionResult)
    (rand : Nat → ℚ) :
    ∀ (l : List CheckinAccount) (i : Nat),
      (processAccountsGo runLogin rand l i).1
        = l.map (fun a => (⟨a.account_id, a.username, (runLogin a).isSome⟩ : CheckinEntry)) := by
  intro l
  induction l with
  | nil => intro i; rfl
  | cons a rest ih =>
    intro i
    cases rest with
    | nil => rfl
    | cons b t =>
      show (⟨a.account_id, a.username, (runLogin a).isSome⟩ : CheckinEntry)
          :: (processAccountsGo runLogin rand (b :: t) (i + 1)).1
        = (a :: b :: t).map
            (fun a => (⟨a.account_id, a.username, (runLogin a).isSome⟩ : CheckinEntry))
      rw [List.map_cons, ih]

/-- The checkin batch inserts exactly one delay per non-final identity. -/
theorem processAccountsGo_delaysLen (runLogin : CheckinAccount → Option SessionResult)
    (rand : Nat → ℚ) :
    ∀ (l : List CheckinAccount) (i : Nat),
      (processAccountsGo runLogin rand l i).2.length = l.length - 1 := by
  intro l
  induction l with
  | nil => intro i; rfl
  | cons a rest ih =>
    intro i
    cases rest with
    | nil => rfl
    | cons b t =>
      show (getRandomDelay 5000 7000 (rand i)
            :: (processAccountsGo runLogin rand (b :: t) (i + 1)).2).length
          = (a :: b :: t).length - 1
      rw [List.length_cons, ih (i + 1)]
      simp

/-- Every delay the checkin batch inserts respects the 5000 ms minimum. -/
theorem processAccountsGo_delays_ge (runLogin : CheckinAccount → Option SessionResult)
    (rand : Nat → ℚ) (hr : ∀ i, 0 ≤ rand i ∧ rand i < 1) :
    ∀ (l : List CheckinAccount) (i : Nat) (d : Int),
      d ∈ (processAccountsGo runLogin rand l i).2 → 5000 ≤ d := by
  intro l
  induction l with
  | nil =>
    intro i d hd
    exact absurd hd (List.not_mem_nil d)
  | cons a rest ih =>
    intro i d hd
    cases rest with
    | nil =>
      have hd2 : d ∈ ([] : List Int) := hd
      exact absurd hd2 (List.not_mem_nil d)
    | cons b t =>
      have hd2 : d ∈ getRandomDelay 5000 7000 (rand i)
          :: (processAccountsGo runLogin rand (b :: t) (i + 1)).2 := hd
      rcases List.mem_cons.mp hd2 with hd3 | hd3
      · rw [hd3]
        exact (getRandomDelay_bounds 5000 7000 (rand i) (by norm_num)
          (hr i).1 (hr i).2).1
      · exact ih (i + 1) d hd3

/-- C5: for N identities of which M fail deterministically, the
password-change batch runner produces the aggregate total = N,
success = N - M and failed = M (with M the number of failing accounts), an
ordered per-identity results list of length N whose i-th entry carries the
i-th account's ids and outcome; the checkin batch runner likewise produces
the ordered per-identity list with success true exactly when the run
returned non-null; and every inter-identity delay either runner inserts is
at least the configured 5000 ms minimum (one delay per non-final
identity). -/
theorem batchRunner_aggregate (runOne : AccountData → Bool) (rand : Nat → ℚ)
    (accountList : List AccountData)
    (runLogin : CheckinAccount → Option SessionResult) (rand2 : Nat → ℚ)
    (accounts : List CheckinAccount)
    (hr : ∀ i, 0 ≤ rand i) (hr2 : ∀ i, 0 ≤ rand2 i ∧ rand2 i < 1) :
    (executeBatchChangePassword runOne rand accountList).1.total = accountList.length ∧
    (executeBatchChangePassword runOne rand accountList).1.success
      = accountList.length - (accountList.filter (fun a => !runOne a)).length ∧
    (executeBatchChangePassword runOne rand accountList).1.failed
      = (accountList.filter (fun a => !runOne a)).length ∧
    (executeBatchChangePassword runOne rand accountList).1.results
      = accountList.map (fun a => (⟨a.record_id, a.old_username, runOne a⟩ : BatchEntry)) ∧
    (executeBatchChangePassword runOne rand accountList).2.length = accountList.length - 1 ∧
    (∀ d ∈ (executeBatchChangePassword runOne rand accountList).2, 5000 ≤ d) ∧
    (processAccountsGo runLogin rand2 accounts 0).1
      = accounts.map (fun a => (⟨a.account_id, a.username, (runLogin a).isSome⟩ : CheckinEntry)) ∧
    (processAccountsGo runLogin rand2 accounts 0).2.length = accounts.length - 1 ∧
    (∀ d ∈ (processAccountsGo runLogin rand2 accounts 0).2, 5000 ≤ d) := by
  have hpart := length_filter_partition (fun a => runOne a) accountList
  have hsucc := executeBatchGo_success runOne rand accountList 0
  have hnot : (accountList.filter (fun a => !(fun a => runOne a) a)).length
      = (accountList.filter (fun a => !runOne a)).length := rfl
  refine ⟨rfl, ?_, ?_, ?_, ?_, ?_, ?_, ?_, ?_⟩
  · show (executeBatchGo runOne rand accountList 0).2.1
      = accountList.length - (accountList.filter (fun a => !runOne a)).length
    rw [hsucc]
    omega
  · exact executeBatchGo_failed runOne rand accountList 0
  · exact executeBatchGo_results runOne rand accountList 0
  · exact executeBatchGo_delaysLen runOne rand accountList 0
  · intro d hd
    exact executeBatchGo_delays_ge runOne rand hr accountList 0 d hd
  · exact processAccountsGo_results runLogin rand2 accounts 0
  · exact processAccountsGo_delaysLen runLogin rand2 accounts 0
  · intro d hd
    exact processAccountsGo_delays_ge runLogin rand2 hr2 accounts 0 d hd

/-- Witness for C5: three password-change accounts of which exactly one
fails give total 3, success 2, failed 1, and the two checkin identities
produce their ordered entry list. -/
theorem batchRunner_aggregate_witness :
    (executeBatchChangePassword wRunOne wRand wAccountList).1.total = 3 ∧
    (executeBatchChangePassword wRunOne wRand wAccountList).1.success = 2 ∧
    (executeBatchChangePassword wRunOne wRand wAccountList).1.failed = 1 ∧
    (processAccountsGo wRunLogin wRand wCheckinAccounts 0).1
      = [⟨"a1", "u1", true⟩, ⟨"a2", "u2", false⟩] := by
  have h := batchRunner_aggregate wRunOne wRand wAccountList wRunLogin wRand wCheckinAccounts
    (fun i => by norm_num [wRand]) (fun i => ⟨by norm_num [wRand], by norm_num [wRand]⟩)
  exact ⟨h.1, h.2.1, h.2.2.1, h.2.2.2.2.2.2.1⟩

/-! ## C4: stealth overrides are idempotent -/

/-- Re-wrapping permissions.query changes nothing observable. -/
theorem overridePermQuery_idem (q : String → PermAnswer) :
    overridePermQuery (overridePermQuery q) = overridePermQuery q := by
  funext name
  unfold overridePermQuery
  by_cases h : name = "notifications" <;> simp [h]

/-- Re-wrapping WebGL getParameter changes nothing observable. -/
theorem overrideGetParameter_idem (g : Nat → String) :
    overrideGetParameter (overrideGetParameter g) = overrideGetParameter g := by
  funext p
  unfold overrideGetParameter
  by_cases h1 : p = 37445
  · simp [h1]
  · by_cases h2 : p = 37446 <;> simp [h1, h2]

/-- Re-applying the battery replacement changes nothing observable. -/
theorem overrideBattery_idem (b : Option BatteryObs) :
    overrideBattery (overrideBattery b) = overrideBattery b := by
  cases b <;> rfl

/-- Re-applying the Notification stub installation changes nothing
observable. -/
theorem overrideNotification_idem (n : Option NotificationObs) :
    overrideNotification (overrideNotification n) = overrideNotification n := by
  cases n <;> rfl

/-- Filtering a list twice with the same predicate equals filtering
once. -/
theorem filter_self_idem {α : Type} (p : α → Bool) (l : List α) :
    (l.filter p).filter p = l.filter p := by
  induction l with
  | nil => rfl
  | cons a t ih =>
    cases h : p a <;> simp [List.filter_cons, h, ih]

/-- Re-wrapping the media device enumeration changes nothing observable. -/
theorem overrideMediaDevices_idem (m : Option (List MediaDeviceObs)) :
    overrideMediaDevices (overrideMediaDevices m) = overrideMediaDevices m := by
  cases m with
  | none => rfl
  | some l =>
    show some (filterMediaDevices (filterMediaDevices l)) = some (filterMediaDevices l)
    unfold filterMediaDevices
    rw [filter_self_idem]

/-- The payload's combined effect on the observable surfaces, taken as a
pure transformer, is idempotent (every field is either a constant or one
of the idempotent wrappers above). -/
theorem applyStealth_idem (s : PageState) :
    applyStealth (applyStealth s) = applyStealth s := by
  unfold applyStealth
  simp only [overridePermQuery_idem, overrideGetParameter_idem, overrideBattery_idem,
    overrideNotification_idem, overrideMediaDevices_idem]

/-- C4 counterexample: evaluating the payload twice in the same page
environment does not idempotently re-apply each override: on the concrete
fresh page the first evaluation completes, but the second throws a
TypeError at the very first override (redefining the non-configurable
webdriver accessor installed by the first run) and aborts with the page
left exactly as the first evaluation left it, measures 2 through 14 never
re-running. -/
theorem stealth_reevaluation_throws_counterexample :
    (evalStealthScript ⟨ceNoApis, false⟩).2 = none ∧
    (evalStealthScript (evalStealthScript ⟨ceNoApis, false⟩).1).2
      = some "TypeError: Cannot redefine property: webdriver" ∧
    (evalStealthScript (evalStealthScript ⟨ceNoApis, false⟩).1).1
      = (evalStealthScript ⟨ceNoApis, false⟩).1 :=
  ⟨rfl, rfl, rfl⟩

/-- C4 (amended): on a fresh page the payload evaluates to completion and
installs the overrides; a second evaluation in the same page environment
throws a TypeError at the first override instead of re-applying the
overrides, and aborts without modifying anything — so after the attempted
second evaluation every overridden surface (navigator properties,
plugins, screen geometry, timezone offset, function stringification)
still yields exactly the observable value of a single evaluation; and
each override, as a transformer of the observable surfaces, is
individually idempotent. -/
theorem stealth_double_evaluation (e : PageEnv) (hfresh : e.stealthInstalled = false) :
    (evalStealthScript e).2 = none ∧
    (evalStealthScript e).1 = ⟨applyStealth e.state, true⟩ ∧
    (evalStealthScript (evalStealthScript e).1).2
      = some "TypeError: Cannot redefine property: webdriver" ∧
    (evalStealthScript (evalStealthScript e).1).1 = (evalStealthScript e).1 ∧
    applyStealth (applyStealth e.state) = applyStealth e.state := by
  have h1 : evalStealthScript e = (⟨applyStealth e.state, true⟩, none) := by
    simp [evalStealthScript, definePropertyGetter, hfresh]
  have h2 : evalStealthScript (⟨applyStealth e.state, true⟩ : PageEnv)
      = (⟨applyStealth e.state, true⟩,
         some "TypeError: Cannot redefine property: webdriver") := by
    simp [evalStealthScript, definePropertyGetter]
  exact ⟨by simp only [h1], by simp only [h1], by simp only [h1, h2],
    by simp only [h1, h2], applyStealth_idem e.state⟩

/-- Witness for C4 (amended) at the concrete fresh page environment. -/
theorem stealth_double_evaluation_witness :
    (evalStealthScript ⟨ceNoApis, false⟩).2 = none ∧
    (evalStealthScript ⟨ceNoApis, false⟩).1 = ⟨applyStealth ceNoApis, true⟩ ∧
    (evalStealthScript (evalStealthScript ⟨ceNoApis, false⟩).1).2
      = some "TypeError: Cannot redefine property: webdriver" ∧
    (evalStealthScript (evalStealthScript ⟨ceNoApis, false⟩).1).1
      = (evalStealthScript ⟨ceNoApis, false⟩).1 ∧
    applyStealth (applyStealth ceNoApis) = applyStealth ceNoApis :=
  stealth_double_evaluation ⟨ceNoApis, false⟩ rfl

/-! ## C8: optional APIs -/

/-- The guarded battery statement never throws and equals the pure battery
override. -/
theorem batteryOverrideE_eq (b : Option BatteryObs) :
    batteryOverrideE b = Except.ok (overrideBattery b) := by
  cases b <;> rfl

/-- The guarded Notification statement never throws and equals the pure
Notification override. -/
theorem notificationOverrideE_eq (n : Option NotificationObs) :
    notificationOverrideE n = Except.ok (overrideNotification n) := by
  cases n <;> rfl

/-- Evaluating the payload with throw effects tracked always succeeds and
produces the pure transformer's result. -/
theorem applyStealthE_eq (s : PageState) : applyStealthE s = Except.ok (applyStealth s) := by
  unfold applyStealthE
  rw [batteryOverrideE_eq, notificationOverrideE_eq]
  rfl

/-- C8 counterexample: in a page environment where the battery API is
absent, evaluating the payload leaves navigator.getBattery absent — no
inert stub substitute is installed for this optional API, contrary to the
claim that each absent optional API receives one. -/
theorem stealth_battery_no_stub_counterexample :
    ceNoApis.getBattery = none ∧
    (applyStealthE ceNoApis).map (fun s => s.getBattery) = Except.ok none :=
  ⟨rfl, rfl⟩

/-- C8 (amended): evaluating the stealth payload never throws when the
optional APIs (battery, notifications) are absent; an absent
window.Notification receives an inert stub substitute, while an absent
navigator.getBattery is left absent (the payload only replaces a battery
API that is present). -/
theorem stealth_optional_apis_safe (s : PageState)
    (hb : s.getBattery = none) (hn : s.notification = none) :
    applyStealthE s = Except.ok (applyStealth s) ∧
    (applyStealth s).notification = some NotificationObs.stub ∧
    (applyStealth s).getBattery = none := by
  refine ⟨applyStealthE_eq s, ?_, ?_⟩
  · show overrideNotification s.notification = some NotificationObs.stub
    rw [hn]
    rfl
  · show overrideBattery s.getBattery = none
    rw [hb]
    rfl

/-- Witness for C8 (amended) at the concrete environment with both
optional APIs absent. -/
theorem stealth_optional_apis_safe_witness :
    applyStealthE ceNoApis = Except.ok (applyStealth ceNoApis) ∧
    (applyStealth ceNoApis).notification = some NotificationObs.stub ∧
    (applyStealth ceNoApis).getBattery = none :=
  stealth_optional_apis_safe ceNoApis rfl rfl
